import Mathlib

/-
Verification of the delivery-route sequencing and routing logic of
`src/pages/DeliveryRoutes.tsx` (dkumareu/delivery-frontend).

The embedding models:
  * the data model (Driver, Customer, Order) with JS truthiness on numeric
    fields (a number is truthy iff it is nonzero; an absent optional field
    is falsy),
  * the coordinate filter and the delivery-sequence comparator used by
    `fetchOrders` (lines 121-152), together with the `useEffect([orders])`
    at lines 155-161 that re-sets `draggableOrder`,
  * the drag-and-drop move of `handleDrop` (lines 176-186) with exact JS
    `Array.prototype.splice` semantics (an out-of-bounds removal index
    yields `undefined`, modelled as `none`; an insertion index past the end
    is clamped to the end),
  * `saveDeliverySequence` (lines 188-208) as the payload it posts,
  * the directions request construction, the route callback and the
    straight-line fallback of `initializeMap` (lines 217-547), as an event
    system: a `compute` event issues a request (as the `useEffect` at lines
    550-554 re-runs `initializeMap` whenever `draggableOrder` changes) and a
    `resolve` event runs the corresponding callback.

TS `number` is modelled as `ℚ` (float rounding is irrelevant to every
claim checked here); ids and statuses are `String`.  Fields of the source
interfaces that no modelled operation reads (addresses, phone numbers,
amounts, ...) are omitted.
-/

namespace DeliveryRoutes

/-- A latitude/longitude pair (`{ lat, lng }` object of the source). -/
structure Coord where
  lat : ℚ
  lng : ℚ
deriving DecidableEq

/-- `Customer` (DeliveryRoutes.tsx lines 38-50); `latitude`/`longitude` are
non-optional numbers there.  Only the fields read by the modelled logic are
kept. -/
structure Customer where
  _id : String
  name : String
  latitude : ℚ
  longitude : ℚ
deriving DecidableEq

/-- `Driver` (lines 29-36); `latitude`/`longitude` are optional numbers. -/
structure Driver where
  _id : String
  driverNumber : String
  name : String
  status : String
  latitude : Option ℚ
  longitude : Option ℚ
deriving DecidableEq

/-- `Order` (lines 52-66); `deliverySequence` is an optional number. -/
structure Order where
  _id : String
  orderNumber : String
  customer : Customer
  deliverySequence : Option Int
deriving DecidableEq

/-- JS truthiness of a (present) number: truthy iff nonzero. -/
def qTruthy (x : ℚ) : Bool := x != 0

/-- JS truthiness of an optional number: `undefined` and `0` are falsy. -/
def optQTruthy : Option ℚ → Bool
  | none => false
  | some x => x != 0

/-- JS truthiness of an optional integer field (`deliverySequence`). -/
def optZTruthy : Option Int → Bool
  | none => false
  | some x => x != 0

/-- The coordinate test `order.customer.latitude && order.customer.longitude`
(lines 134-136, 157-159, 958-959). -/
def hasCoords (o : Order) : Bool :=
  qTruthy o.customer.latitude && qTruthy o.customer.longitude

/-- `orders.filter((order) => order.customer.latitude && order.customer.longitude)`. -/
def ordersWithCoords (orders : List Order) : List Order :=
  orders.filter hasCoords

/-- The manifest filter `!order.customer.latitude || !order.customer.longitude`
(lines 748-750). -/
def ordersWithoutCoords (orders : List Order) : List Order :=
  orders.filter (fun o => !(qTruthy o.customer.latitude) || !(qTruthy o.customer.longitude))

/-- `baseLocation` (lines 91-94): the driver's coordinate when both parts are
truthy, otherwise the Berlin default `(52.52, 13.405)`. -/
def baseLocation (selectedDriver : Option Driver) : Coord :=
  match selectedDriver with
  | some d =>
      if optQTruthy d.latitude && optQTruthy d.longitude then
        { lat := d.latitude.getD 0, lng := d.longitude.getD 0 }
      else
        { lat := 52.52, lng := 13.405 }
  | none => { lat := 52.52, lng := 13.405 }

/-- Lexicographic comparison of character lists by code point. -/
def charListLt : List Char → List Char → Bool
  | [], [] => false
  | [], _ :: _ => true
  | _ :: _, [] => false
  | c :: cs, d :: ds =>
    if c.toNat < d.toNat then true
    else if d.toNat < c.toNat then false
    else charListLt cs ds

/-- Lexicographic strict order on strings by code point. -/
def strLt (a b : String) : Bool := charListLt a.toList b.toList

/-- Three-way string comparison modelling `a.localeCompare(b)` on the ASCII
order numbers used by the source. -/
def strCmp (a b : String) : Int :=
  if strLt a b then -1 else if strLt b a then 1 else 0

/-- The comparator of `fetchOrders`' sort (lines 139-144): when both
`deliverySequence` values are truthy compare them numerically, otherwise
compare `orderNumber` strings. -/
def orderComparator (a b : Order) : Int :=
  if optZTruthy a.deliverySequence && optZTruthy b.deliverySequence then
    a.deliverySequence.getD 0 - b.deliverySequence.getD 0
  else
    strCmp a.orderNumber b.orderNumber

/-- Stable insertion of `x` into `ys` under a JS-style comparator: `x` is
placed before the first element it does not compare greater than. -/
def insertSorted (cmp : α → α → Int) (x : α) : List α → List α
  | [] => [x]
  | y :: ys => if cmp x y ≤ 0 then x :: y :: ys else y :: insertSorted cmp x ys

/-- A stable comparison sort (JS engines use a stable sort). -/
def sortJS (cmp : α → α → Int) (xs : List α) : List α :=
  xs.foldr (insertSorted cmp) []

/-- Component state relevant to loading: the fetched `orders` and the
displayed `draggableOrder`. -/
structure SeqState where
  orders : List Order
  draggableOrder : List Order
deriving DecidableEq

/-- The state updates of `fetchOrders`' success path (lines 132-146):
`setOrders(response.data)` and `setDraggableOrder(sortedOrders)` where
`sortedOrders` sorts the coordinate-filtered copy with `orderComparator`. -/
def applyFetchOrders (data : List Order) (st : SeqState) : SeqState :=
  { st with
    orders := data
    draggableOrder := sortJS orderComparator (ordersWithCoords data) }

/-- The `useEffect([orders])` at lines 155-161: whenever `orders` changes it
re-sets `draggableOrder` to the unsorted coordinate-filtered list. -/
def applyOrdersEffect (st : SeqState) : SeqState :=
  { st with draggableOrder := ordersWithCoords st.orders }

/-- Net effect of one fetch: the effect hook runs after the fetch handler's
state updates commit (its dependency `orders` changed), so its
`setDraggableOrder` lands last. -/
def loadFlow (data : List Order) : SeqState :=
  applyOrdersEffect (applyFetchOrders data { orders := [], draggableOrder := [] })

/-- `arr.splice(i, 1)` on a list: the removed element (`none` when `i` is out
of bounds, in which case JS destructuring yields `undefined`) and the
remaining list. -/
def jsRemoveAt : List α → Nat → Option α × List α
  | [], _ => (none, [])
  | x :: xs, 0 => (some x, xs)
  | x :: xs, n + 1 =>
      let r := jsRemoveAt xs n
      (r.1, x :: r.2)

/-- `arr.splice(i, 0, v)` on a list: insertion at `i`, clamped to the end
when `i` exceeds the length. -/
def jsInsertAt : List β → Nat → β → List β
  | ys, 0, x => x :: ys
  | [], _ + 1, x => [x]
  | y :: ys, n + 1, x => y :: jsInsertAt ys n x

/-- The reorder of `handleDrop` (lines 176-186) with exact splice semantics:
no-op when the two indices coincide; otherwise remove at `i` (possibly
obtaining `undefined`) and insert the removed value at `j`.  Elements of the
result are `Option`-valued because JS can insert `undefined` here. -/
def moveJS (xs : List α) (i j : Nat) : List (Option α) :=
  if i = j then xs.map some
  else
    let r := jsRemoveAt xs i
    jsInsertAt (r.2.map some) j r.1

/-- The same reorder restricted to the in-bounds removal case (the only one
reachable from the drag handlers, whose indices come from the rendered
list).  `moveJS_eq_map_moveList` relates the two. -/
def moveList (xs : List α) (i j : Nat) : List α :=
  match jsRemoveAt xs i with
  | (some x, rest) => jsInsertAt rest j x
  | (none, _) => xs

theorem jsRemoveAt_eq (xs : List α) (i : Nat) :
    jsRemoveAt xs i = (xs[i]?, xs.eraseIdx i) := by
  induction xs generalizing i with
  | nil => cases i <;> simp [jsRemoveAt, List.eraseIdx]
  | cons x xs ih =>
    cases i with
    | zero => simp [jsRemoveAt, List.eraseIdx]
    | succ n => simp [jsRemoveAt, List.eraseIdx, ih]

theorem jsInsertAt_map (f : α → β) (xs : List α) (i : Nat) (x : α) :
    (jsInsertAt xs i x).map f = jsInsertAt (xs.map f) i (f x) := by
  induction xs generalizing i with
  | nil => cases i <;> simp [jsInsertAt]
  | cons y ys ih =>
    cases i with
    | zero => simp [jsInsertAt]
    | succ n => simp [jsInsertAt, ih]

theorem jsRemoveAt_jsInsertAt (l : List α) (j : Nat) (x : α) (h : j ≤ l.length) :
    jsRemoveAt (jsInsertAt l j x) j = (some x, l) := by
  induction j generalizing l with
  | zero => cases l <;> simp [jsInsertAt, jsRemoveAt]
  | succ n ih =>
    cases l with
    | nil => simp at h
    | cons y ys =>
      have hn : n ≤ ys.length := by
        simpa using Nat.le_of_succ_le_succ h
      simp [jsInsertAt, jsRemoveAt, ih ys hn]

theorem jsInsertAt_jsRemoveAt (xs : List α) (i : Nat) (h : i < xs.length) :
    jsInsertAt (jsRemoveAt xs i).2 i ((jsRemoveAt xs i).1.getD (xs.get ⟨i, h⟩)) = xs := by
  induction xs generalizing i with
  | nil => simp at h
  | cons x xs ih =>
    cases i with
    | zero => simp [jsRemoveAt, jsInsertAt]
    | succ n =>
      have hn : n < xs.length := Nat.lt_of_succ_lt_succ h
      simpa [jsRemoveAt, jsInsertAt] using ih n hn

theorem moveJS_eq_map_moveList (xs : List α) (i j : Nat) (h : i < xs.length) :
    moveJS xs i j = (moveList xs i j).map some := by
  have hr : jsRemoveAt xs i = (xs[i]?, xs.eraseIdx i) := jsRemoveAt_eq xs i
  have hget : xs[i]? = some (xs.get ⟨i, h⟩) := by
    simp [List.getElem?_eq_getElem h]
  by_cases hij : i = j
  · subst hij
    have := jsInsertAt_jsRemoveAt xs i h
    rw [hr, hget] at this
    simp only [Option.getD_some, List.get_eq_getElem] at this
    simp [moveJS, moveList, hr, hget, this]
  · simp [moveJS, moveList, hr, hget, hij, jsInsertAt_map]

/-- A JS `Date` as used by the component: `getFullYear()`, `getMonth()`
(0-based) and `getDate()`. -/
structure DateJS where
  year : Nat
  monthIndex : Nat
  day : Nat
deriving DecidableEq

/-- `String(n).padStart(2, "0")` for a natural number. -/
def pad2 (n : Nat) : String :=
  if n < 10 then "0" ++ toString n else toString n

/-- The `yyyy-mm-dd` string built in `fetchOrders` and `saveDeliverySequence`
(lines 126-128, 193-195): `getFullYear()-pad(getMonth()+1)-pad(getDate())`. -/
def dateStrOf (d : DateJS) : String :=
  toString d.year ++ "-" ++ pad2 (d.monthIndex + 1) ++ "-" ++ pad2 d.day

/-- The body posted to `/orders/update-sequence` (lines 197-201). -/
structure SavePayload where
  orderIds : List String
  driverId : String
  deliveryDate : String
deriving DecidableEq

/-- `saveDeliverySequence` (lines 188-208): returns the posted payload, or
`none` when it returns early because no driver or date is selected. -/
def saveDeliverySequence (selectedDriver : Option Driver) (selectedDate : Option DateJS)
    (newOrder : List Order) : Option SavePayload :=
  match selectedDriver, selectedDate with
  | some d, some dt =>
      some { orderIds := newOrder.map (fun o => o._id)
             driverId := d._id
             deliveryDate := dateStrOf dt }
  | _, _ => none

/-- Drag-and-drop component state: the displayed list and `draggedIndex`. -/
structure DropState where
  draggableOrder : List Order
  draggedIndex : Option Nat
deriving DecidableEq

/-- `handleDrop` (lines 176-186): guard on a null or equal index, reorder via
splice, clear the dragged index and call `saveDeliverySequence` with the new
list.  Returns the new state and the persistence payload (if any was sent).
The reorder is written with `moveList` because the handler indices come from
the rendered list and are in bounds; `moveJS_eq_map_moveList` relates that to
the raw splice semantics. -/
def handleDrop (st : DropState) (index : Nat) (selectedDriver : Option Driver)
    (selectedDate : Option DateJS) : DropState × Option SavePayload :=
  match st.draggedIndex with
  | none => (st, none)
  | some di =>
      if di = index then (st, none)
      else
        let newOrder := moveList st.draggableOrder di index
        ({ draggableOrder := newOrder, draggedIndex := none },
         saveDeliverySequence selectedDriver selectedDate newOrder)

/-- The `catch` branch of `saveDeliverySequence` (lines 204-207) only logs:
no state field is written on persistence failure, so the state after the
persistence round-trip is the state before it, whatever the outcome. -/
def applyPersistResult (st : DropState) (_persistSucceeded : Bool) : DropState := st

/-- A drop followed by the completion of its persistence call. -/
def handleDropFlow (st : DropState) (index : Nat) (selectedDriver : Option Driver)
    (selectedDate : Option DateJS) (persistSucceeded : Bool) : DropState :=
  applyPersistResult (handleDrop st index selectedDriver selectedDate).1 persistSucceeded

/-- The `DirectionsRequest` built at lines 295-301. -/
structure DirectionsRequest where
  origin : Coord
  destination : Coord
  waypoints : List Coord
  optimizeWaypoints : Bool
  travelMode : String
deriving DecidableEq

/-- The customer coordinate of an order, as used for markers and waypoints. -/
def orderCoord (o : Order) : Coord :=
  { lat := o.customer.latitude, lng := o.customer.longitude }

/-- Request construction of `initializeMap` (lines 281-301): one request when
the ordered stop list is non-empty (waypoints in the given order, origin =
destination = base, `optimizeWaypoints: false`, driving mode), no request
otherwise. -/
def routeRequestOf (base : Coord) (ordersWC : List Order) : Option DirectionsRequest :=
  if ordersWC.length > 0 then
    some { origin := base
           destination := base
           waypoints := ordersWC.map orderCoord
           optimizeWaypoints := false
           travelMode := "DRIVING" }
  else none

/-- A `{ text, value }` pair of the directions response. -/
structure TextValue where
  text : String
  value : Int
deriving DecidableEq

/-- One leg of a provider response: optional distance/duration, addresses and
per-step geometry. -/
structure DLeg where
  distance : Option TextValue
  duration : Option TextValue
  start_address : String
  end_address : String
  steps : List (List Coord)
deriving DecidableEq

/-- One route of a provider response. -/
structure DRoute where
  legs : List DLeg
deriving DecidableEq

/-- A provider response (`result` of the callback). -/
structure DirectionsResult where
  routes : List DRoute
deriving DecidableEq

/-- One entry of the `routeInfo.legs` state (lines 339-344). -/
structure RouteInfoLeg where
  distance : String
  duration : String
  startAddress : String
  endAddress : String
deriving DecidableEq

/-- The `routeInfo` state (lines 80-89). -/
structure RouteInfo where
  totalDistance : Int
  totalDuration : Int
  legs : List RouteInfoLeg
deriving DecidableEq

/-- `leg.distance?.value || 0`. -/
def legDistanceValue (l : DLeg) : Int :=
  match l.distance with
  | some tv => tv.value
  | none => 0

/-- `leg.duration?.value || 0`. -/
def legDurationValue (l : DLeg) : Int :=
  match l.duration with
  | some tv => tv.value
  | none => 0

/-- `leg.distance?.text || ""` (and similarly for duration). -/
def tvText : Option TextValue → String
  | some tv => tv.text
  | none => ""

/-- The `routeInfo` value computed from the first route of a successful
response (lines 326-345). -/
def routeInfoOfRoute (r : DRoute) : RouteInfo :=
  { totalDistance := (r.legs.map legDistanceValue).sum
    totalDuration := (r.legs.map legDurationValue).sum
    legs := r.legs.map (fun l =>
      { distance := tvText l.distance
        duration := tvText l.duration
        startAddress := l.start_address
        endAddress := l.end_address }) }

/-- The fallback point list `[baseLocation, ...coords, baseLocation]`
(lines 463-470). -/
def fallbackPoints (base : Coord) (stops : List Order) : List Coord :=
  base :: stops.map orderCoord ++ [base]

/-- The fallback polyline segments: one leg `(points[i], points[i+1])` for
each `i < points.length - 1` (lines 472-495). -/
def fallbackLegs (base : Coord) (stops : List Order) : List (Coord × Coord) :=
  (fallbackPoints base stops).zip (fallbackPoints base stops).tail

/-- The fallback-route banner condition of the map panel (line 1132):
`!routeInfo && routePoints.length > 0 && !routeLoading`. -/
def fallbackFlagShown (routeInfo : Option RouteInfo) (routePointsLen : Nat)
    (routeLoading : Bool) : Bool :=
  routeInfo.isNone && decide (routePointsLen > 0) && !routeLoading

/-- An in-flight directions request: the callback's closure captures the
stop list and base location of its own `initializeMap` run. -/
structure PendingReq where
  reqId : Nat
  request : DirectionsRequest
  stops : List Order
  base : Coord
deriving DecidableEq

/-- Route-computation state: issued-request counter, in-flight requests, the
`routeLoading` and `routeInfo` states, and the polylines drawn by the last
resolved callback. -/
structure RCState where
  nextId : Nat
  pending : List PendingReq
  routeLoading : Bool
  routeInfo : Option RouteInfo
  drawn : List (List Coord)
deriving DecidableEq

/-- The initial route-computation state. -/
def rcInit : RCState :=
  { nextId := 0, pending := [], routeLoading := false, routeInfo := none, drawn := [] }

/-- Events of the route computation: an `initializeMap` run over a stop list
(`compute`), and the arrival of a provider response for an earlier request
(`resolve`). -/
inductive RCEvent where
  | compute (base : Coord) (stops : List Order)
  | resolve (reqId : Nat) (status : String) (result : Option DirectionsResult)
deriving DecidableEq

/-- The body of the `directionsService.route` callback (lines 304-543), run
for the request it was registered on.  It is executed unconditionally: no
token or staleness check guards `setRouteInfo`.  On `status === OK` with a
first route: set `routeInfo` and draw one polyline per leg from the
concatenated step paths (empty paths are skipped, lines 403-415); on OK
without a route: nothing beyond clearing `routeLoading`; otherwise: clear
`routeInfo` (line 449) and draw the straight-line fallback segments. -/
def resolveOne (st : RCState) (p : PendingReq) (status : String)
    (result : Option DirectionsResult) : RCState :=
  let st1 := { st with routeLoading := false }
  if status = "OK" then
    match result with
    | some res =>
        match res.routes with
        | r :: _ =>
            { st1 with
              routeInfo := some (routeInfoOfRoute r)
              drawn := (r.legs.map (fun l => l.steps.flatten)).filter (fun path => path ≠ []) }
        | [] => st1
    | none => st1
  else
    { st1 with
      routeInfo := none
      drawn := (fallbackLegs p.base p.stops).map (fun pq => [pq.1, pq.2]) }

/-- One step of the route-computation event system.  A `compute` over a
non-empty list issues exactly one request (lines 281-304) and sets
`routeLoading`; over an empty list it only clears `routeLoading` (line 545).
A `resolve` runs the matching callback and retires the request; a resolve
for an unknown id is ignored. -/
def step (st : RCState) : RCEvent → RCState
  | .compute base stops =>
      match routeRequestOf base stops with
      | some req =>
          { st with
            routeLoading := true
            nextId := st.nextId + 1
            pending := st.pending ++ [{ reqId := st.nextId, request := req,
                                        stops := stops, base := base }] }
      | none => { st with routeLoading := false }
  | .resolve reqId status result =>
      match st.pending.find? (fun p => p.reqId = reqId) with
      | some p =>
          resolveOne { st with pending := st.pending.filter (fun q => q.reqId ≠ reqId) }
            p status result
      | none => st

/-- Run a sequence of route-computation events. -/
def run (st : RCState) (evs : List RCEvent) : RCState :=
  evs.foldl step st

/-- The two manifest sections built by `downloadManifest` that enumerate
orders: the delivery-sequence table rows (lines 703-724, from
`draggableOrder` in order) and the "Orders Without Coordinates (Not in
Route)" section (lines 747-779). -/
structure Manifest where
  sequencedRows : List Order
  withoutCoordsRows : List Order
  totalOrders : Nat
deriving DecidableEq

/-- `downloadManifest`, restricted to its order enumeration. -/
def buildManifest (orders : List Order) (draggableOrder : List Order) : Manifest :=
  { sequencedRows := draggableOrder
    withoutCoordsRows := ordersWithoutCoords orders
    totalOrders := orders.length }

theorem zip_tail_getElem (l : List α) (k : Nat) :
    (l.zip l.tail)[k]? =
      match l[k]?, l[k + 1]? with
      | some a, some b => some (a, b)
      | _, _ => none := by
  induction l generalizing k with
  | nil => simp
  | cons x xs ih =>
    cases xs with
    | nil => cases k <;> simp
    | cons y ys =>
      cases k with
      | zero => simp
      | succ n =>
        simpa using ih n

/-! Concrete example data, used by counterexamples and witnesses. -/

/-- Example geocoded customer. -/
def exCustomerA : Customer := { _id := "c1", name := "Alice", latitude := 52, longitude := 13 }

/-- Example geocoded customer. -/
def exCustomerB : Customer := { _id := "c2", name := "Bob", latitude := 53, longitude := 14 }

/-- Example geocoded customer. -/
def exCustomerC : Customer := { _id := "c3", name := "Cara", latitude := 54, longitude := 15 }

/-- Example customer whose latitude is the (falsy) number 0. -/
def exCustomerNoLoc : Customer := { _id := "c4", name := "Dan", latitude := 0, longitude := 13 }

/-- Example order ORD-001. -/
def exOrder1 : Order :=
  { _id := "ord-1", orderNumber := "ORD-001", customer := exCustomerA, deliverySequence := none }

/-- Example order ORD-002. -/
def exOrder2 : Order :=
  { _id := "ord-2", orderNumber := "ORD-002", customer := exCustomerB, deliverySequence := none }

/-- Example order ORD-003. -/
def exOrder3 : Order :=
  { _id := "ord-3", orderNumber := "ORD-003", customer := exCustomerC, deliverySequence := none }

/-- Example order whose customer has a falsy latitude. -/
def exOrderNoLoc : Order :=
  { _id := "ord-4", orderNumber := "ORD-004", customer := exCustomerNoLoc, deliverySequence := none }

/-- Example driver with a truthy base coordinate. -/
def exDriver : Driver :=
  { _id := "drv-1", driverNumber := "D-1", name := "Eva", status := "active",
    latitude := some 52, longitude := some 13 }

/-- Example driver whose stored latitude is the (falsy) number 0. -/
def exDriverZero : Driver :=
  { _id := "drv-2", driverNumber := "D-2", name := "Finn", status := "active",
    latitude := some 0, longitude := some 13 }

/-- Example selected date (9 is the JS 0-based month index of October). -/
def exDate : DateJS := { year := 2025, monthIndex := 9, day := 8 }

/-- Example base coordinate. -/
def exBase : Coord := { lat := 52, lng := 13 }

theorem mem_jsInsertAt (l : List α) (i : Nat) (x a : α) :
    a ∈ jsInsertAt l i x ↔ a = x ∨ a ∈ l := by
  induction l generalizing i with
  | nil => cases i <;> simp [jsInsertAt]
  | cons y ys ih =>
    cases i with
    | zero => simp [jsInsertAt]
    | succ n =>
      simp [jsInsertAt, ih]
      tauto

theorem moveList_mem (xs : List α) (i j : Nat) (o : α) (h : o ∈ moveList xs i j) :
    o ∈ xs := by
  rw [moveList, jsRemoveAt_eq] at h
  rcases hx : xs[i]? with _ | x
  · rw [hx] at h
    simpa using h
  · rw [hx] at h
    simp only [mem_jsInsertAt] at h
    rcases h with rfl | h
    · exact List.getElem?_mem hx
    · exact (List.eraseIdx_sublist xs i).mem h

/-- C4: `handleDrop`'s reorder does remove the element at `fromIndex` and
reinsert it at `toIndex`, and is a no-op when the indices coincide — but the
claimed no-op on out-of-bounds indices is false: the code has no bounds
guard, so a `toIndex` past the end is clamped (the element is appended) and
a `fromIndex` past the end inserts an `undefined` entry.  This closed
counterexample refutes the out-of-bounds clause: with the one-element list
`[exOrder1]`, `fromIndex = 5` out of bounds and `toIndex = 0`, the result is
`[undefined, exOrder1]`, not the unchanged input. -/
theorem C4_out_of_bounds_counterexample :
    moveJS [exOrder1] 5 0 = [none, some exOrder1]
    ∧ moveJS [exOrder1] 5 0 ≠ List.map some [exOrder1] := by
  constructor <;> decide

/-- C4 (amended): the move removes the element at `fromIndex` and reinserts
it at `toIndex`, and is a no-op when `fromIndex = toIndex`; out-of-bounds
indices are not guarded: in general the result inserts `xs[fromIndex]?`
(which is `undefined` when `fromIndex` is out of bounds) into the
`fromIndex`-erased list at `toIndex`, clamped to the end. -/
theorem C4_move_splice_behavior (xs : List Order) (i j : Nat) :
    (i = j → moveJS xs i j = xs.map some)
    ∧ (i ≠ j → moveJS xs i j = jsInsertAt ((xs.eraseIdx i).map some) j xs[i]?)
    ∧ (i ≠ j → xs.length ≤ i → moveJS xs i j = jsInsertAt (xs.map some) j none) := by
  refine ⟨?_, ?_, ?_⟩
  · intro h
    simp [moveJS, h]
  · intro h
    simp [moveJS, h, jsRemoveAt_eq]
  · intro h hle
    have h1 : xs[i]? = none := List.getElem?_eq_none hle
    have h2 : xs.eraseIdx i = xs := List.eraseIdx_of_length_le hle
    simp [moveJS, h, jsRemoveAt_eq, h1, h2]

/-- Witness for C4_move_splice_behavior at `[exOrder1, exOrder2]`, moving
index 1 to index 0. -/
theorem C4_move_splice_behavior_witness :
    moveJS [exOrder1, exOrder2] 1 0
      = jsInsertAt (([exOrder1, exOrder2].eraseIdx 1).map some) 0 [exOrder1, exOrder2][1]? :=
  (C4_move_splice_behavior [exOrder1, exOrder2] 1 0).2.1 (by decide)

/-- C8: for a list of length at least 2 and distinct in-bounds indices,
moving `i` to `j` and then `j` back to `i` restores the original list (up to
the `Option` embedding forced by the splice typing). -/
theorem C8_move_inverse (xs : List Order) (i j : Nat) (hlen : 2 ≤ xs.length)
    (hij : i ≠ j) (hi : i < xs.length) (hj : j < xs.length) :
    moveJS (moveJS xs i j) j i = (xs.map some).map some := by
  have hget : xs[i]? = some xs[i] := List.getElem?_eq_getElem hi
  have hr1 : jsRemoveAt xs i = (some xs[i], xs.eraseIdx i) := by
    rw [jsRemoveAt_eq, hget]
  have elen : (xs.eraseIdx i).length = xs.length - 1 := by
    rw [List.length_eraseIdx]
    simp [hi]
  have hj2 : j ≤ ((xs.eraseIdx i).map some).length := by
    rw [List.length_map, elen]
    omega
  have m1 : moveJS xs i j = jsInsertAt ((xs.eraseIdx i).map some) j (some xs[i]) := by
    simp [moveJS, hij, hr1]
  have hrem : jsRemoveAt (jsInsertAt ((xs.eraseIdx i).map some) j (some xs[i])) j
      = (some (some xs[i]), (xs.eraseIdx i).map some) :=
    jsRemoveAt_jsInsertAt _ j _ hj2
  have m2 : moveJS (jsInsertAt ((xs.eraseIdx i).map some) j (some xs[i])) j i
      = jsInsertAt (((xs.eraseIdx i).map some).map some) i (some (some xs[i])) := by
    simp [moveJS, hij.symm, hrem]
  have hrestore : jsInsertAt (xs.eraseIdx i) i xs[i] = xs := by
    have h := jsInsertAt_jsRemoveAt xs i hi
    simp only [jsRemoveAt_eq, hget, Option.getD_some, List.get_eq_getElem] at h
    exact h
  rw [m1, m2, ← jsInsertAt_map, ← jsInsertAt_map, hrestore]

/-- Witness for C8_move_inverse: moving index 0 to index 2 on a 3-element
list and back restores the list. -/
theorem C8_move_inverse_witness :
    moveJS (moveJS [exOrder1, exOrder2, exOrder3] 0 2) 2 0
      = ([exOrder1, exOrder2, exOrder3].map some).map some :=
  C8_move_inverse [exOrder1, exOrder2, exOrder3] 0 2 (by decide) (by decide)
    (by decide) (by decide)

/-- C2: the claimed sorted initial display order does not survive.
`fetchOrders` does compute the sorted order (second conjunct), but the
`useEffect([orders])` fires after its state updates commit (its dependency
`orders` changed to the freshly fetched array) and re-sets `draggableOrder`
to the unsorted coordinate-filtered list, so the displayed initial order is
the fetch order, not ascending by order number (first conjunct).  The
concrete input fetches `[ORD-002, ORD-001]`, both geocoded, no sequence
numbers. -/
theorem C2_sort_overwritten_by_effect :
    (loadFlow [exOrder2, exOrder1]).draggableOrder = [exOrder2, exOrder1]
    ∧ sortJS orderComparator (ordersWithCoords [exOrder2, exOrder1]) = [exOrder1, exOrder2]
    ∧ ([exOrder2, exOrder1] : List Order) ≠ [exOrder1, exOrder2] := by
  refine ⟨?_, ?_, ?_⟩ <;> decide

/-- C5: a drop with a set dragged index distinct from the target, with a
driver and date selected, posts exactly the ordered id list of the newly
reordered `draggableOrder` (in that order) together with the driver id and
the formatted date. -/
theorem C5_persist_payload (xs : List Order) (di index : Nat) (d : Driver) (dt : DateJS)
    (_hdi : di < xs.length) (hne : di ≠ index) :
    (handleDrop ⟨xs, some di⟩ index (some d) (some dt)).2
      = some { orderIds :=
                 ((handleDrop ⟨xs, some di⟩ index (some d) (some dt)).1.draggableOrder).map
                   (fun o => o._id)
               driverId := d._id
               deliveryDate := dateStrOf dt }
    ∧ (handleDrop ⟨xs, some di⟩ index (some d) (some dt)).1.draggableOrder
        = moveList xs di index := by
  constructor
  · simp [handleDrop, hne, saveDeliverySequence]
  · simp [handleDrop, hne]

/-- Witness for C5_persist_payload: dragging ORD-003 (index 2) to index 0
posts ids `["ord-3", "ord-1", "ord-2"]` with the driver and date context. -/
theorem C5_persist_payload_witness :
    (handleDrop ⟨[exOrder1, exOrder2, exOrder3], some 2⟩ 0 (some exDriver) (some exDate)).2
      = some { orderIds := ["ord-3", "ord-1", "ord-2"]
               driverId := "drv-1"
               deliveryDate := "2025-10-08" } := by
  have h := C5_persist_payload [exOrder1, exOrder2, exOrder3] 2 0 exDriver exDate
    (by decide) (by decide)
  rw [h.1]
  decide

/-- C6: persistence failure never rolls back the reorder: after a drop, the
displayed list is exactly the move result whether or not the
`saveDeliverySequence` call succeeded, and the whole post-persist state is
identical in the two outcomes (the `catch` branch only logs). -/
theorem C6_no_rollback_on_persist_failure (xs : List Order) (di index : Nat) (d : Driver)
    (dt : DateJS) (hne : di ≠ index) :
    (handleDropFlow ⟨xs, some di⟩ index (some d) (some dt) false).draggableOrder
      = moveList xs di index
    ∧ handleDropFlow ⟨xs, some di⟩ index (some d) (some dt) false
        = handleDropFlow ⟨xs, some di⟩ index (some d) (some dt) true := by
  constructor
  · simp [handleDropFlow, applyPersistResult, handleDrop, hne]
  · rfl

/-- Witness for C6_no_rollback_on_persist_failure: a failed persist after
dragging index 2 to index 0 leaves the reordered list in place. -/
theorem C6_no_rollback_on_persist_failure_witness :
    (handleDropFlow ⟨[exOrder1, exOrder2, exOrder3], some 2⟩ 0 (some exDriver) (some exDate)
        false).draggableOrder
      = [exOrder3, exOrder1, exOrder2] := by
  have h := C6_no_rollback_on_persist_failure [exOrder1, exOrder2, exOrder3] 2 0 exDriver
    exDate (by decide)
  rw [h.1]
  decide

/-- C7: an `initializeMap` run over a non-empty ordered stop list issues
exactly one directions request: the pending set grows by the single request
whose waypoints are the stops' coordinates in the given order, with
`optimizeWaypoints` disabled and origin = destination = base. -/
theorem C7_single_request (st : RCState) (base : Coord) (stops : List Order)
    (h : stops ≠ []) :
    routeRequestOf base stops
      = some { origin := base, destination := base, waypoints := stops.map orderCoord,
               optimizeWaypoints := false, travelMode := "DRIVING" }
    ∧ step st (.compute base stops)
        = { st with
            routeLoading := true
            nextId := st.nextId + 1
            pending := st.pending ++
              [{ reqId := st.nextId
                 request := { origin := base, destination := base,
                              waypoints := stops.map orderCoord,
                              optimizeWaypoints := false, travelMode := "DRIVING" }
                 stops := stops, base := base }] } := by
  have hlen : stops.length > 0 := List.length_pos.mpr h
  have hreq : routeRequestOf base stops
      = some { origin := base, destination := base, waypoints := stops.map orderCoord,
               optimizeWaypoints := false, travelMode := "DRIVING" } := by
    simp [routeRequestOf, hlen]
  exact ⟨hreq, by simp [step, hreq]⟩

/-- Witness for C7_single_request: computing over the singleton stop list
`[exOrder1]` from the initial state issues request 0 with one waypoint. -/
theorem C7_single_request_witness :
    step rcInit (.compute exBase [exOrder1])
      = { rcInit with
          routeLoading := true
          nextId := 1
          pending := [{ reqId := 0
                        request := { origin := exBase, destination := exBase,
                                     waypoints := [orderCoord exOrder1],
                                     optimizeWaypoints := false, travelMode := "DRIVING" }
                        stops := [exOrder1], base := exBase }] } := by
  have h := C7_single_request rcInit exBase [exOrder1] (by decide)
  rw [h.2]
  rfl

/-- The manifest predicate for "no coordinates" is the negation of the
display filter's predicate. -/
theorem withoutCoords_pred_eq (o : Order) :
    (!(qTruthy o.customer.latitude) || !(qTruthy o.customer.longitude)) = !(hasCoords o) := by
  simp [hasCoords]

/-- C9: after a load, the displayed sequencing order contains exactly the
stops with truthy coordinates; a stop without coordinates is never in it but
is enumerated in the manifest's "Orders Without Coordinates" section; every
fetched order appears in one of the two enumerations; and reordering never
introduces elements, so coordinate-less stops stay out of the displayed
order under drags. -/
theorem C9_no_coord_partition (orders : List Order) :
    ((loadFlow orders).draggableOrder = ordersWithCoords orders)
    ∧ (∀ o, o ∈ (loadFlow orders).draggableOrder → hasCoords o = true)
    ∧ (∀ o, o ∈ orders → hasCoords o = false →
        o ∉ (loadFlow orders).draggableOrder
        ∧ o ∈ (buildManifest orders (loadFlow orders).draggableOrder).withoutCoordsRows)
    ∧ (∀ o, o ∈ orders →
        o ∈ (loadFlow orders).draggableOrder
        ∨ o ∈ (buildManifest orders (loadFlow orders).draggableOrder).withoutCoordsRows)
    ∧ (∀ (xs : List Order) (i j : Nat) (o : Order), o ∈ moveList xs i j → o ∈ xs) := by
  have hload : (loadFlow orders).draggableOrder = ordersWithCoords orders := rfl
  have hman : (buildManifest orders (loadFlow orders).draggableOrder).withoutCoordsRows
      = ordersWithoutCoords orders := rfl
  have key : ∀ o, o ∈ orders → hasCoords o = false →
      o ∉ (loadFlow orders).draggableOrder
      ∧ o ∈ (buildManifest orders (loadFlow orders).draggableOrder).withoutCoordsRows := by
    intro o ho hf
    constructor
    · rw [hload]
      intro hmem
      have ht := (List.mem_filter.mp hmem).2
      rw [hf] at ht
      simp at ht
    · rw [hman]
      refine List.mem_filter.mpr ⟨ho, ?_⟩
      rw [withoutCoords_pred_eq, hf]
      rfl
  refine ⟨hload, ?_, key, ?_, ?_⟩
  · intro o ho
    rw [hload] at ho
    exact (List.mem_filter.mp ho).2
  · intro o ho
    by_cases h : hasCoords o = true
    · left
      rw [hload]
      exact List.mem_filter.mpr ⟨ho, h⟩
    · right
      have hf : hasCoords o = false := by
        revert h
        cases hasCoords o <;> simp
      exact (key o ho hf).2
  · intro xs i j o h
    exact moveList_mem xs i j o h

/-- Witness for C9_no_coord_partition: the coordinate-less ORD-004 is kept
out of the displayed order but listed in the manifest's no-coordinates
section. -/
theorem C9_no_coord_partition_witness :
    exOrderNoLoc ∉ (loadFlow [exOrder1, exOrderNoLoc]).draggableOrder
    ∧ exOrderNoLoc ∈ (buildManifest [exOrder1, exOrderNoLoc]
        (loadFlow [exOrder1, exOrderNoLoc]).draggableOrder).withoutCoordsRows :=
  (C9_no_coord_partition [exOrder1, exOrderNoLoc]).2.2.1 exOrderNoLoc (by decide) (by decide)

/-- C10: coordinate presence is tested by truthiness, so a zero latitude or
longitude makes a stop count as having no coordinate (it is excluded from
the displayed sequencing order), and a driver whose stored latitude or
longitude is 0 (or absent) gets the Berlin default base (52.52, 13.405). -/
theorem C10_falsy_coordinates :
    (∀ o : Order, o.customer.latitude = 0 ∨ o.customer.longitude = 0 →
      hasCoords o = false)
    ∧ (∀ (orders : List Order) (o : Order),
        o.customer.latitude = 0 ∨ o.customer.longitude = 0 →
        o ∉ (loadFlow orders).draggableOrder)
    ∧ (∀ d : Driver,
        d.latitude = some 0 ∨ d.longitude = some 0 ∨ d.latitude = none ∨ d.longitude = none →
        baseLocation (some d) = { lat := 52.52, lng := 13.405 }) := by
  have h1 : ∀ o : Order, o.customer.latitude = 0 ∨ o.customer.longitude = 0 →
      hasCoords o = false := by
    intro o h
    rcases h with h | h <;> simp [hasCoords, qTruthy, h]
  refine ⟨h1, ?_, ?_⟩
  · intro orders o h hmem
    have hmem2 : o ∈ ordersWithCoords orders := hmem
    have ht := (List.mem_filter.mp hmem2).2
    rw [h1 o h] at ht
    simp at ht
  · intro d h
    rcases h with h | h | h | h <;> simp [baseLocation, optQTruthy, h]

/-- Witness for C10_falsy_coordinates at ORD-004 (zero latitude) and the
driver with stored latitude 0. -/
theorem C10_falsy_coordinates_witness :
    hasCoords exOrderNoLoc = false
    ∧ exOrderNoLoc ∉ (loadFlow [exOrderNoLoc]).draggableOrder
    ∧ baseLocation (some exDriverZero) = { lat := 52.52, lng := 13.405 } :=
  ⟨C10_falsy_coordinates.1 exOrderNoLoc (Or.inl rfl),
   C10_falsy_coordinates.2.1 [exOrderNoLoc] exOrderNoLoc (Or.inl rfl),
   C10_falsy_coordinates.2.2 exDriverZero (Or.inl rfl)⟩

/-- C3: resolving a pending request for a non-empty stop list with a non-OK
status clears `routeInfo` (so no provider distance/duration metadata is
retained), draws exactly the straight-line fallback: one leg per consecutive
pair of `[origin, ...coords, origin]`, i.e. n+1 legs for n stops, and the
fallback banner condition holds — while it can never hold for a
provider-returned route (`routeInfo` set). -/
theorem C3_provider_failure_fallback (st : RCState) (p : PendingReq) (status : String)
    (result : Option DirectionsResult) (hs : status ≠ "OK") (hne : p.stops ≠ []) :
    (resolveOne st p status result).routeInfo = none
    ∧ (resolveOne st p status result).drawn
        = (fallbackLegs p.base p.stops).map (fun pq => [pq.1, pq.2])
    ∧ (fallbackLegs p.base p.stops).length = p.stops.length + 1
    ∧ (∀ k, k < p.stops.length + 1 →
        ∃ a b, (fallbackPoints p.base p.stops)[k]? = some a
          ∧ (fallbackPoints p.base p.stops)[k + 1]? = some b
          ∧ (fallbackLegs p.base p.stops)[k]? = some (a, b))
    ∧ fallbackFlagShown (resolveOne st p status result).routeInfo p.stops.length
        (resolveOne st p status result).routeLoading = true
    ∧ (∀ info n b, fallbackFlagShown (some info) n b = false) := by
  have hres : resolveOne st p status result
      = { st with
          routeLoading := false
          routeInfo := none
          drawn := (fallbackLegs p.base p.stops).map (fun pq => [pq.1, pq.2]) } := by
    simp [resolveOne, hs]
  have hpts : (fallbackPoints p.base p.stops).length = p.stops.length + 2 := by
    simp [fallbackPoints]
  have hlegs : (fallbackLegs p.base p.stops).length = p.stops.length + 1 := by
    simp [fallbackLegs, fallbackPoints]
  refine ⟨by rw [hres], by rw [hres], hlegs, ?_, ?_, ?_⟩
  · intro k hk
    have ha : k < (fallbackPoints p.base p.stops).length := by omega
    have hb : k + 1 < (fallbackPoints p.base p.stops).length := by omega
    refine ⟨(fallbackPoints p.base p.stops)[k], (fallbackPoints p.base p.stops)[k + 1],
      List.getElem?_eq_getElem ha, List.getElem?_eq_getElem hb, ?_⟩
    rw [fallbackLegs, zip_tail_getElem, List.getElem?_eq_getElem ha,
      List.getElem?_eq_getElem hb]
  · rw [hres]
    have hpos : 0 < p.stops.length := List.length_pos.mpr hne
    simp [fallbackFlagShown, hpos]
  · intro info n b
    simp [fallbackFlagShown]

/-- Example failed request over three stops, for the C3 witness. -/
def exFailedReq : PendingReq :=
  { reqId := 0
    request := { origin := exBase, destination := exBase,
                 waypoints := [orderCoord exOrder1, orderCoord exOrder2, orderCoord exOrder3],
                 optimizeWaypoints := false, travelMode := "DRIVING" }
    stops := [exOrder1, exOrder2, exOrder3]
    base := exBase }

/-- Witness for C3_provider_failure_fallback: a ZERO_RESULTS status over the
three-stop request clears `routeInfo` and yields 4 fallback legs. -/
theorem C3_provider_failure_fallback_witness :
    (resolveOne rcInit exFailedReq "ZERO_RESULTS" none).routeInfo = none
    ∧ (fallbackLegs exFailedReq.base exFailedReq.stops).length = 4 := by
  have h := C3_provider_failure_fallback rcInit exFailedReq "ZERO_RESULTS" none
    (by decide) (by decide)
  refine ⟨h.1, ?_⟩
  rw [h.2.2.1]
  rfl

/-- Leg of the first (stale) provider response, total distance 100. -/
def exLeg1 : DLeg :=
  { distance := some { text := "100 m", value := 100 }
    duration := some { text := "60 s", value := 60 }
    start_address := "Base"
    end_address := "Stop A"
    steps := [[{ lat := 52, lng := 13 }, { lat := 53, lng := 14 }]] }

/-- Leg of the second (fresh) provider response, total distance 200. -/
def exLeg2 : DLeg :=
  { distance := some { text := "200 m", value := 200 }
    duration := some { text := "120 s", value := 120 }
    start_address := "Base"
    end_address := "Stop B"
    steps := [[{ lat := 53, lng := 14 }, { lat := 52, lng := 13 }]] }

/-- Response of the first-issued (stale) computation. -/
def exResultStale : DirectionsResult := { routes := [{ legs := [exLeg1] }] }

/-- Response of the second-issued (fresh) computation. -/
def exResultFresh : DirectionsResult := { routes := [{ legs := [exLeg2] }] }

/-- Two route computations issued back to back (the second before the first
resolves), resolving out of order: the fresh response (request 1) arrives
first, the stale response (request 0) last. -/
def staleTrace : List RCEvent :=
  [ .compute exBase [exOrder1, exOrder2],
    .compute exBase [exOrder2, exOrder1],
    .resolve 1 "OK" (some exResultFresh),
    .resolve 0 "OK" (some exResultStale) ]

/-- C1: the callback applies its result unconditionally — there is no
staleness token — so after the out-of-order trace the rendered `routeInfo`
is the stale first request's result (total distance 100), not the result of
the most recently requested stop list (total distance 200), refuting the
claimed staleness discard. -/
theorem C1_stale_result_applied_last :
    (run rcInit staleTrace).routeInfo = some (routeInfoOfRoute { legs := [exLeg1] })
    ∧ routeInfoOfRoute { legs := [exLeg1] } ≠ routeInfoOfRoute { legs := [exLeg2] }
    ∧ (routeInfoOfRoute { legs := [exLeg1] }).totalDistance = 100
    ∧ (routeInfoOfRoute { legs := [exLeg2] }).totalDistance = 200 := by
  refine ⟨?_, ?_, ?_, ?_⟩ <;> decide

end DeliveryRoutes
